import Mathlib

/-!
# Verification of the credit-ledger / payment-settlement core

Shallow embedding, in Lean 4, of the ledger, order-store, membership and
settlement code of the repository (`src/core/payment_utils.py`,
`src/crud/credit_transaction.py`, `src/crud/user_profile.py`,
`src/crud/payment_order.py`, `src/crud/user.py`, `src/api/v1/payment.py`,
`src/services/product_service.py`), together with theorems checking the
specification's claims about that code.

Conventions of the embedding:
* machine integers are `Int`/`Nat`; currency amounts are `ℚ` (the source
  stores DECIMAL(10,2) and converts through Python `float`; the rounding
  comparison `round(x, 2)` is embedded as rounding to integer cents);
* timestamps are integers measured in days (`timedelta(days=d)` becomes
  `+ d`);
* the MD5 digest (`hashlib.md5(...).hexdigest()`, an external library
  call) is an opaque parameter `md5hex : String → String` of the
  embedding; everything the repository computes around it (filtering,
  sorting, joining, lowercasing, comparing) is embedded concretely;
* Python string comparison (used by `sorted`) is code-point
  lexicographic order, embedded as `charListLE` on `String.data`;
  `str.lower()` is embedded as mapping `Char.toLower` over the
  characters (the strings compared in the source are ASCII hex digests);
* Python dicts become association lists (first binding wins, as unique
  keys make the two agree);
* a SQLAlchemy session plus commit/rollback becomes explicit state
  passing: each operation maps a state to a new state, and an exception
  that the source lets escape a transaction block restores the state
  from before the block.
-/

/-! ## SignatureVerifier (`src/core/payment_utils.py`) -/

/-- Python `dict.get(k)`: first binding of `k` in the association list. -/
def dictGet (params : List (String × String)) (k : String) : Option String :=
  (params.find? (fun kv => kv.1 == k)).map Prod.snd

/-- Code-point lexicographic order on character lists: Python's `<=` on
strings, as used by `sorted`. -/
def charListLE : List Char → List Char → Bool
  | [], _ => true
  | _ :: _, [] => false
  | a :: as, b :: bs =>
    if a.toNat < b.toNat then true
    else if b.toNat < a.toNat then false
    else charListLE as bs

/-- Python `str.lower()` (ASCII range; the source lowercases hex digests). -/
def pyLower (s : String) : String := ⟨s.data.map Char.toLower⟩

/-- Key order used by `sorted(filtered_params.items(), key=lambda x: x[0])`:
compare pairs by their key only. -/
def keyLE (a b : String × Option String) : Prop := charListLE a.1.data b.1.data = true

instance : DecidableRel keyLE := fun a b =>
  inferInstanceAs (Decidable (charListLE a.1.data b.1.data = true))

/-- Step 1 of `generate_md5_sign`: drop the keys `sign` and `sign_type`
and every parameter whose value is `None` or the empty string. -/
def filteredParams (params : List (String × Option String)) : List (String × Option String) :=
  params.filter (fun kv =>
    kv.1 != "sign" && kv.1 != "sign_type" && kv.2 != none && kv.2 != some "")

/-- Step 3 of `generate_md5_sign`: join as `key1=value1&key2=value2`,
with no URL-encoding of values. -/
def paramStr (l : List (String × Option String)) : String :=
  String.intercalate "&" (l.map (fun kv => kv.1 ++ "=" ++ kv.2.getD ""))

/-- Embedding of `generate_md5_sign(params, merchant_key)` from `src/core/payment_utils.py`:
filter, sort by key ascending, join, append the raw merchant key, digest,
lowercase. The digest itself (`hashlib.md5(...).hexdigest()`) is the opaque
parameter `md5hex`. -/
def generate_md5_sign (md5hex : String → String) (params : List (String × Option String))
    (merchant_key : String) : String :=
  pyLower (md5hex (paramStr (List.insertionSort keyLE (filteredParams params)) ++ merchant_key))

/-- Embedding of `verify_zpay_callback(params, merchant_key)` from
`src/core/payment_utils.py`: reject an absent/empty `sign` parameter,
otherwise recompute the signature over the same parameter set (the
`sign`/`sign_type` keys are dropped inside `generate_md5_sign`) and
compare case-insensitively. -/
def verify_zpay_callback (md5hex : String → String) (params : List (String × String))
    (merchant_key : String) : Bool :=
  let received_sign := (dictGet params "sign").getD ""
  if received_sign == "" then false
  else pyLower received_sign
    == pyLower (generate_md5_sign md5hex (params.map (fun kv => (kv.1, some kv.2))) merchant_key)

/-! Order lemmas for `charListLE`, and: two key-sorted association lists
with the same bindings and duplicate-free keys are equal. -/

theorem charListLE_total : ∀ as bs, charListLE as bs = true ∨ charListLE bs as = true
  | [], _ => .inl rfl
  | _ :: _, [] => .inr rfl
  | a :: as, b :: bs => by
    rcases Nat.lt_trichotomy a.toNat b.toNat with h | h | h
    · left; simp [charListLE, h]
    · have ih := charListLE_total as bs
      simpa [charListLE, h] using ih
    · right; simp [charListLE, h]

theorem charListLE_trans :
    ∀ as bs cs, charListLE as bs = true → charListLE bs cs = true → charListLE as cs = true
  | [], _, _ => fun _ _ => rfl
  | _ :: _, [], _ => by intro h _; simp [charListLE] at h
  | _ :: _, _ :: _, [] => by intro _ h; simp [charListLE] at h
  | a :: as, b :: bs, c :: cs => by
    intro hab hbc
    rcases Nat.lt_trichotomy a.toNat b.toNat with h₁ | h₁ | h₁ <;>
      rcases Nat.lt_trichotomy b.toNat c.toNat with h₂ | h₂ | h₂ <;>
      simp [charListLE, h₁, h₂, Nat.lt_irrefl] at hab hbc ⊢ <;>
      first
        | exact Nat.lt_trans h₁ h₂
        | omega
        | (try simp [show ¬ a.toNat < c.toNat by omega, show ¬ c.toNat < a.toNat by omega]
           try simp [show a.toNat < c.toNat by omega]
           try exact charListLE_trans as bs cs hab hbc)

theorem charListLE_antisymm :
    ∀ as bs, charListLE as bs = true → charListLE bs as = true → as = bs
  | [], [] => fun _ _ => rfl
  | [], _ :: _ => by intro _ h; simp [charListLE] at h
  | _ :: _, [] => by intro h _; simp [charListLE] at h
  | a :: as, b :: bs => by
    intro hab hba
    rcases Nat.lt_trichotomy a.toNat b.toNat with h | h | h
    · simp [charListLE, h, Nat.lt_asymm h] at hba
    · have hc : a = b := Char.eq_of_val_eq (UInt32.ext h)
      subst hc
      simp only [charListLE, Nat.lt_irrefl, if_false] at hab hba
      simp [charListLE_antisymm as bs hab hba]
    · simp [charListLE, h, Nat.lt_asymm h] at hab

instance : IsTotal (String × Option String) keyLE := ⟨fun a b => charListLE_total a.1.data b.1.data⟩

instance : IsTrans (String × Option String) keyLE :=
  ⟨fun _ _ _ h₁ h₂ => charListLE_trans _ _ _ h₁ h₂⟩

theorem keyLE_antisymm {a b : String × Option String} (h₁ : keyLE a b) (h₂ : keyLE b a) :
    a.1 = b.1 := by
  have hd := charListLE_antisymm _ _ h₁ h₂
  obtain ⟨s₁, v₁⟩ := a
  obtain ⟨s₂, v₂⟩ := b
  obtain ⟨da⟩ := s₁
  obtain ⟨db⟩ := s₂
  simp only at hd
  simp only at hd ⊢
  exact congrArg String.mk hd

theorem sorted_nodupKeys_eq :
    ∀ {l₁ l₂ : List (String × Option String)}, l₁.Perm l₂ →
      l₁.Sorted keyLE → l₂.Sorted keyLE → (l₁.map Prod.fst).Nodup → l₁ = l₂ := by
  intro l₁
  induction l₁ with
  | nil =>
    intro l₂ hp _ _ _
    exact hp.nil_eq
  | cons a t ih =>
    intro l₂ hp hs₁ hs₂ hnd
    match l₂ with
    | [] => exact absurd hp.symm.nil_eq (by simp)
    | b :: u =>
      by_cases hab : a = b
      · subst hab
        have ht : t.Perm u := hp.cons_inv
        have := ih ht hs₁.of_cons hs₂.of_cons (by simpa using hnd.of_cons)
        simp [this]
      · exfalso
        have ha : a ∈ b :: u := hp.subset (List.mem_cons_self a t)
        have hau : a ∈ u := by
          rcases List.mem_cons.mp ha with h | h
          · exact absurd h hab
          · exact h
        have hb : b ∈ a :: t := hp.symm.subset (List.mem_cons_self b u)
        have hbt : b ∈ t := by
          rcases List.mem_cons.mp hb with h | h
          · exact absurd h.symm hab
          · exact h
        have h₁ : keyLE a b := List.rel_of_sorted_cons hs₁ b hbt
        have h₂ : keyLE b a := List.rel_of_sorted_cons hs₂ a hau
        have hkey : a.1 = b.1 := keyLE_antisymm h₁ h₂
        have : a.1 ∈ t.map Prod.fst := hkey ▸ List.mem_map_of_mem Prod.fst hbt
        exact (List.nodup_cons.mp hnd).1 this

theorem generate_md5_sign_perm (md5hex : String → String) (merchant_key : String)
    {l₁ l₂ : List (String × Option String)} (hp : l₁.Perm l₂)
    (hnd : (l₁.map Prod.fst).Nodup) :
    generate_md5_sign md5hex l₁ merchant_key = generate_md5_sign md5hex l₂ merchant_key := by
  have hpf : (filteredParams l₁).Perm (filteredParams l₂) := hp.filter _
  have hndf : ((filteredParams l₁).map Prod.fst).Nodup :=
    hnd.sublist ((List.filter_sublist l₁).map Prod.fst)
  have hsortp : (List.insertionSort keyLE (filteredParams l₁)).Perm
      (List.insertionSort keyLE (filteredParams l₂)) :=
    ((List.perm_insertionSort keyLE _).trans hpf).trans (List.perm_insertionSort keyLE _).symm
  have hnds : ((List.insertionSort keyLE (filteredParams l₁)).map Prod.fst).Nodup :=
    (((List.perm_insertionSort keyLE (filteredParams l₁)).map Prod.fst).nodup_iff).mpr hndf
  have heq : List.insertionSort keyLE (filteredParams l₁)
      = List.insertionSort keyLE (filteredParams l₂) :=
    sorted_nodupKeys_eq hsortp (List.sorted_insertionSort keyLE _)
      (List.sorted_insertionSort keyLE _) hnds
  simp [generate_md5_sign, heq]

/-! ## Data model

Rows are embedded as structures; columns that none of the modelled
operations read or write (primary-key ids of transactions, created/updated
timestamps, client ip, signature columns of orders, ...) are omitted.
Timestamps are integers measured in days. -/

/-- Row type `UserProfile` (`src/models/user_profile.py`). -/
structure UserProfile where
  credits : Int
  free_model1_usages : Int
  free_model2_usages : Int
  membership_type : Int
  membership_expires_at : Option Int
  deriving Repr, DecidableEq

/-- Row type `CreditTransaction` (`src/models/credit_transaction.py`). -/
structure CreditTransaction where
  user_id : Nat
  amount : Int
  balance_after : Int
  source : String
  source_id : Option Nat
  deriving Repr, DecidableEq

/-- Row type `PaymentOrder` (`src/models/payment_order.py`). `param_product_id`
embeds the result of extracting `product_id` from the JSON `param` blob
(`json.loads(order.param).get('product_id')` in `payment_notify`): `none`
when `param` is NULL, unparseable, or carries no (truthy) product id.
Status values follow `PaymentOrderStatus`: 0 Pending, 1 Success, 2 Closed. -/
structure PaymentOrder where
  id : Nat
  user_id : Nat
  out_trade_no : String
  name : String
  money : ℚ
  param_product_id : Option String
  trade_no : Option String
  status : Int
  trade_status : Option String
  endtime : Option Int
  unique_pending_flag : Nat
  created_at : Int
  deriving Repr, DecidableEq

/-- The subset of `PaymentOrderUpdate` fields that the payment endpoints
pass to `update_payment_order`; `none` = key absent from the update dict. -/
structure PaymentOrderUpdate where
  trade_no : Option String := none
  trade_status : Option String := none
  status : Option Int := none
  endtime : Option Int := none
  deriving Repr, DecidableEq

/-- Users table, reduced to id → role (`src/models/user.py`). -/
abbrev Users := List (Nat × String)

/-- The `user_profiles` table: user id → profile row. -/
abbrev Profiles := List (Nat × UserProfile)

/-! ## OrderStore (`src/crud/payment_order.py`) -/

/-- Embedding of `get_payment_order_by_id`. -/
def get_payment_order_by_id (orders : List PaymentOrder) (order_id : Nat) :
    Option PaymentOrder :=
  orders.find? (fun o => o.id == order_id)

/-- Embedding of `get_payment_order_by_out_trade_no`. -/
def get_payment_order_by_out_trade_no (orders : List PaymentOrder) (out_trade_no : String) :
    Option PaymentOrder :=
  orders.find? (fun o => o.out_trade_no == out_trade_no)

/-- Embedding of `update_payment_order(db, order_id, order_update)`: look the order up by
id (`none`, no change, on a miss), set every field present in the update
dict, and when the update changes `status`, recompute `unique_pending_flag`
(0 on a move to Pending, the order's own id otherwise). There is no check
of the original status. Returns the updated row and the updated table. -/
def update_payment_order (orders : List PaymentOrder) (order_id : Nat)
    (upd : PaymentOrderUpdate) : Option PaymentOrder × List PaymentOrder :=
  match get_payment_order_by_id orders order_id with
  | none => (none, orders)
  | some db_order =>
    let original_status := db_order.status
    let o₁ : PaymentOrder := { db_order with
      trade_no := match upd.trade_no with | some v => some v | none => db_order.trade_no
      trade_status := match upd.trade_status with | some v => some v | none => db_order.trade_status
      status := upd.status.getD db_order.status
      endtime := match upd.endtime with | some v => some v | none => db_order.endtime }
    let o₂ : PaymentOrder :=
      match upd.status with
      | some new_status =>
        if new_status ≠ original_status then
          if new_status = 0 then { o₁ with unique_pending_flag := 0 }
          else { o₁ with unique_pending_flag := o₁.id }
        else o₁
      | none => o₁
    (some o₂, orders.map (fun x => if x.id == order_id then o₂ else x))

/-- Embedding of `delete_pending_payment_orders(db)`: collect every order whose status is
Pending (0), delete them all, and return how many were deleted, together
with the surviving table. The function takes no age cutoff. -/
def delete_pending_payment_orders (orders : List PaymentOrder) : Nat × List PaymentOrder :=
  let pending_orders := orders.filter (fun o => o.status == 0)
  (pending_orders.length, orders.filter (fun o => o.status != 0))

/-! ## CreditLedger (`src/crud/user_profile.py`, `src/crud/credit_transaction.py`) -/

/-- The default profile created on first access by
`get_user_profile_or_create`. -/
def defaultUserProfile : UserProfile :=
  { credits := 0, free_model1_usages := 5, free_model2_usages := 3,
    membership_type := 0, membership_expires_at := none }

/-- Embedding of `get_user_profile(db, user_id)`. -/
def get_user_profile (profiles : Profiles) (user_id : Nat) : Option UserProfile :=
  (profiles.find? (fun kv => kv.1 == user_id)).map Prod.snd

/-- Replace the stored profile row of `user_id` (SQLAlchemy attribute writes
on the fetched row followed by commit/flush). -/
def setProfile (profiles : Profiles) (user_id : Nat) (p : UserProfile) : Profiles :=
  profiles.map (fun kv => if kv.1 == user_id then (kv.1, p) else kv)

/-- Embedding of `get_user_profile_or_create(db, user_id)`: return the existing row, or
create (and commit) a default one. -/
def get_user_profile_or_create (profiles : Profiles) (user_id : Nat) :
    UserProfile × Profiles :=
  match get_user_profile profiles user_id with
  | some p => (p, profiles)
  | none => (defaultUserProfile, profiles ++ [(user_id, defaultUserProfile)])

/-- Embedding of `update_user_credits(db, user_id, credits)` from `src/crud/user_profile.py`:
stores its `credits` argument as the absolute balance; no change when the
profile row is missing. -/
def update_user_credits (profiles : Profiles) (user_id : Nat) (credits : Int) : Profiles :=
  match get_user_profile profiles user_id with
  | none => profiles
  | some p => setProfile profiles user_id { p with credits := credits }

/-- Ledger state: profile table plus the append-only
`credit_transactions` table (oldest first). -/
structure LedgerDB where
  profiles : Profiles
  txns : List CreditTransaction
  deriving Repr, DecidableEq

/-- Embedding of `add_credits(db, user_id, amount, source, source_id)` from
`src/crud/credit_transaction.py`: materialize the profile, compute
`new_balance = profile.credits + amount`, call
`update_user_credits(db, user_id, amount)` — the source passes the delta
`amount`, not `new_balance`, and `update_user_credits` stores its argument
as the absolute balance — and append a `CreditTransaction` carrying
`balance_after = new_balance`. -/
def add_credits (db : LedgerDB) (user_id : Nat) (amount : Int) (source : String)
    (source_id : Option Nat) : CreditTransaction × LedgerDB :=
  let pr := get_user_profile_or_create db.profiles user_id
  let new_balance := pr.1.credits + amount
  let profiles₂ := update_user_credits pr.2 user_id amount
  let txn : CreditTransaction :=
    { user_id := user_id, amount := amount, balance_after := new_balance,
      source := source, source_id := source_id }
  (txn, { profiles := profiles₂, txns := db.txns ++ [txn] })

/-- Embedding of `consume_credits(db, user_id, amount, source, source_id)`: materialize
the profile (this creation is committed even when the check below fails),
raise `ValueError` when `profile.credits < amount`, otherwise store
`new_balance = profile.credits - amount` via `update_user_credits` and
append a ledger entry with the negated amount. -/
def consume_credits (db : LedgerDB) (user_id : Nat) (amount : Int) (source : String)
    (source_id : Option Nat) : Except String CreditTransaction × LedgerDB :=
  let pr := get_user_profile_or_create db.profiles user_id
  if pr.1.credits < amount then
    (.error "积分不足", { db with profiles := pr.2 })
  else
    let new_balance := pr.1.credits - amount
    let profiles₂ := update_user_credits pr.2 user_id new_balance
    let txn : CreditTransaction :=
      { user_id := user_id, amount := -amount, balance_after := new_balance,
        source := source, source_id := source_id }
    (.ok txn, { profiles := profiles₂, txns := db.txns ++ [txn] })

/-! ## MembershipGrantor (`src/crud/user_profile.py`, `upgrade_membership`) -/

/-- Embedding of `upgrade_membership(db, user_id, membership_type, days)`: `none` when the
profile row is missing; an expired membership (expiry ≤ now) counts as tier
0; Professional (2) is never downgraded; an active membership extends
additively from its existing expiry, otherwise the clock starts at `now`;
upgrades (requested > effective, or effective 0) set tier and expiry,
same-tier requests extend the expiry only, and lower requests change
nothing. Returns the resulting row and table. -/
def upgrade_membership (profiles : Profiles) (now : Int) (user_id : Nat)
    (membership_type : Int) (days : Int) : Option UserProfile × Profiles :=
  match get_user_profile profiles user_id with
  | none => (none, profiles)
  | some db_profile =>
    let cur₀ := db_profile.membership_type
    let cur : Int × Option Int :=
      match db_profile.membership_expires_at with
      | some e => if e ≤ now then (0, none) else (cur₀, some e)
      | none => (cur₀, none)
    if cur.1 = 2 ∧ membership_type < 2 then
      (some db_profile, profiles)
    else
      let new_expires_at : Int :=
        match cur.2 with
        | some e => if e > now then e + days else now + days
        | none => now + days
      if membership_type > cur.1 ∨ cur.1 = 0 then
        let p := { db_profile with
                   membership_type := membership_type,
                   membership_expires_at := some new_expires_at }
        (some p, setProfile profiles user_id p)
      else if membership_type = cur.1 then
        let p := { db_profile with membership_expires_at := some new_expires_at }
        (some p, setProfile profiles user_id p)
      else
        (some db_profile, profiles)

/-! ## Users and roles (`src/crud/user.py`) -/

/-- Python `str.upper()` (ASCII range). -/
def pyUpper (s : String) : String := ⟨s.data.map Char.toUpper⟩

/-- Embedding of `validate_user_role(role)`: uppercase and check membership in the
`UserRole` enum (`USER`, `ADMIN`, `SUPER_ADMIN`); `ValueError` otherwise. -/
def validate_user_role (role : String) : Except String String :=
  let role_upper := pyUpper role
  if role_upper == "USER" || role_upper == "ADMIN" || role_upper == "SUPER_ADMIN" then
    .ok role_upper
  else
    .error "无效的用户角色"

/-- Embedding of `update_user_role(db, user_id, role)` from `src/crud/user.py` (the
3-argument signature plus `commit`): validate the role — any `ValueError`
is caught by the function's own handler, which returns `False` with no
mutation — then look the user up and store the validated role. The
`role == "premium"` branch that would also touch the membership profile is
unreachable: `"PREMIUM"` is not a `UserRole` member, so validation already
failed. -/
def update_user_role (users : Users) (user_id : Nat) (role : String) : Bool × Users :=
  match validate_user_role role with
  | .error _ => (false, users)
  | .ok user_role =>
    match users.find? (fun kv => kv.1 == user_id) with
    | none => (false, users)
    | some _ =>
      (true, users.map (fun kv => if kv.1 == user_id then (kv.1, user_role) else kv))

/-! ## Product catalog (`src/services/product_service.py`) -/

/-- Membership block of a product (`level`/`days`). -/
structure ProductMembership where
  level : String
  days : Int
  deriving Repr, DecidableEq

/-- One `PRODUCT_CONFIG` entry (description omitted). `credits` embeds
`product.get("credits", 0)`. -/
structure Product where
  price : ℚ
  credits : Int
  membership : Option ProductMembership
  name : String
  deriving Repr, DecidableEq

/-- Table `PRODUCT_CONFIG`, in source (dict-insertion) order. -/
def PRODUCT_CONFIG : List (String × Product) :=
  [("credits_500",
    { price := 99/100, credits := 500,
      membership := some { level := "advanced", days := 30 }, name := "内测专享包" }),
   ("credits_150",
    { price := 29/10, credits := 150,
      membership := none, name := "新手体验包" }),
   ("credits_1200",
    { price := 189/10, credits := 1200,
      membership := some { level := "advanced", days := 30 }, name := "创作入门包" }),
   ("credits_2400",
    { price := 299/10, credits := 2400,
      membership := some { level := "advanced", days := 30 }, name := "轻量月包" }),
   ("credits_5000",
    { price := 68, credits := 5000,
      membership := some { level := "professional", days := 30 }, name := "专业月包" }),
   ("credits_16000",
    { price := 188, credits := 16000,
      membership := some { level := "professional", days := 90 }, name := "专业季度包" })]

/-- Embedding of `get_product_by_id(product_id)`: the catalog entry, or an
`HTTPException` (embedded as an error) for an unknown id. -/
def get_product_by_id (product_id : String) : Except String Product :=
  match (PRODUCT_CONFIG.find? (fun kv => kv.1 == product_id)).map Prod.snd with
  | some p => .ok p
  | none => .error "无效的产品ID"

/-! ## SettlementCoordinator (`src/api/v1/payment.py`, `payment_notify`) -/

/-- The provider fields `payment_notify` requires (step 2 of the handler). -/
def requiredParams : List String :=
  ["pid", "trade_no", "out_trade_no", "type", "name", "money", "trade_status", "sign", "sign_type"]

/-- The persistent state the callback handler touches. -/
structure NotifyDB where
  orders : List PaymentOrder
  users : Users
  profiles : Profiles
  txns : List CreditTransaction
  deriving Repr, DecidableEq

/-- Python `round(x, 2)` on currency, embedded as rounding to integer cents. -/
def roundCents (q : ℚ) : Int := round (q * 100)

/-- Python `int()` on a non-negative numeric value: truncation toward zero. -/
def pyInt (q : ℚ) : Int := Int.tdiv q.num (Int.ofNat q.den)

/-- The `with db.begin():` block of `payment_notify` (lines 510–596): flip
the order to Success, require the owning user to exist (`ValueError` rolls
the whole block back), resolve the product id from the order's `param` blob
with a legacy fallback matching `PRODUCT_CONFIG` entries by display name,
then run the product business logic inside the handler's inner
`try/except`, whose failures are logged and swallowed while keeping the
effects already applied. In the membership branch the source calls
`update_user_role(db, user.id, level, days, commit=False)`, which binds
`days` to the positional parameter `commit` and passes `commit` again by
keyword, so Python raises `TypeError` at the call site before any effect;
the inner `except` swallows it, and the membership grant is never applied. -/
def paymentNotifyTransaction (db : NotifyDB) (order : PaymentOrder)
    (params : List (String × String)) (now : Int) : Except String NotifyDB :=
  let trade_status := (dictGet params "trade_status").getD ""
  let upd : PaymentOrderUpdate :=
    { trade_no := dictGet params "trade_no", trade_status := some trade_status,
      status := some 1, endtime := some now }
  let orders' := (update_payment_order db.orders order.id upd).2
  let db₁ : NotifyDB := { db with orders := orders' }
  match db.users.find? (fun kv => kv.1 == order.user_id) with
  | none => .error "订单用户不存在"
  | some _ =>
    let product_id : Option String :=
      match order.param_product_id with
      | some pid => some pid
      | none => (PRODUCT_CONFIG.find? (fun kv => kv.2.name == order.name)).map Prod.fst
    match product_id with
    | some pid =>
      match get_product_by_id pid with
      | .error _ => .ok db₁
      | .ok product =>
        let db₂ :=
          if product.credits > 0 then
            let r := add_credits { profiles := db₁.profiles, txns := db₁.txns }
              order.user_id product.credits "recharge" (some order.id)
            { db₁ with profiles := r.2.profiles, txns := r.2.txns }
          else db₁
        match product.membership with
        | some m =>
          if m.level ≠ "" ∧ m.days ≠ 0 then
            .ok db₂
          else .ok db₂
        | none => .ok db₂
    | none =>
      if order.name == "积分充值" then
        let credits_to_add := pyInt (order.money * 10)
        let r := add_credits { profiles := db₁.profiles, txns := db₁.txns }
          order.user_id credits_to_add "recharge" (some order.id)
        .ok { db₁ with profiles := r.2.profiles, txns := r.2.txns }
      else if order.name == "会员升级" then
        .ok { db₁ with users := (update_user_role db₁.users order.user_id "premium").2 }
      else .ok db₁

/-- Embedding of `payment_notify(request, db)` (`src/api/v1/payment.py`, lines 442–605):
require the provider fields, verify the signature, resolve the order by
`out_trade_no`, acknowledge an already-Success order without touching
state, compare the callback amount to the order amount rounded to cents,
acknowledge (without effect) a non-`TRADE_SUCCESS` status, and otherwise
run the settlement transaction, answering `success` on commit and `fail`
on rollback. `parseMoney` embeds Python `float(...)` on the `money`
parameter, `none` standing for a `ValueError` that the endpoint's outer
handler turns into `fail`. -/
def payment_notify (md5hex : String → String) (parseMoney : String → Option ℚ)
    (merchant_key : String) (now : Int) (db : NotifyDB)
    (params : List (String × String)) : String × NotifyDB :=
  if requiredParams.any (fun p => (dictGet params p).isNone) then ("fail", db)
  else if !(verify_zpay_callback md5hex params merchant_key) then ("fail", db)
  else
    match get_payment_order_by_out_trade_no db.orders
      ((dictGet params "out_trade_no").getD "") with
    | none => ("fail", db)
    | some order =>
      if order.status == 1 then ("success", db)
      else
        match parseMoney ((dictGet params "money").getD "0") with
        | none => ("fail", db)
        | some callback_money =>
          if roundCents callback_money ≠ roundCents order.money then ("fail", db)
          else if (dictGet params "trade_status").getD "" ≠ "TRADE_SUCCESS" then ("success", db)
          else
            match paymentNotifyTransaction db order params now with
            | .ok db' => ("success", db')
            | .error _ => ("fail", db)

/-! ## Claim theorems -/

/-- C7: `generate_md5_sign` drops `sign`/`sign_type` and empty/absent
values, sorts the remaining keys ascending, joins them `k=v` with `&`,
appends the raw secret and lowercases the digest of the result, so the
output is insertion-order independent
(`sign({b:"2",a:"1"},"K") = sign({a:"1",b:"2"},"K") = md5("a=1&b=2K")`-style
fixture), and `verify_zpay_callback` accepts exactly the caller-supplied
signatures equal to this digest up to ASCII case. -/
theorem generate_md5_sign_spec (md5hex : String → String) (merchant_key : String) :
    (∀ (l₁ l₂ : List (String × Option String)), l₁.Perm l₂ → (l₁.map Prod.fst).Nodup →
        generate_md5_sign md5hex l₁ merchant_key = generate_md5_sign md5hex l₂ merchant_key)
    ∧ generate_md5_sign md5hex [("b", some "2"), ("a", some "1")] "K"
        = pyLower (md5hex "a=1&b=2K")
    ∧ (∀ (params : List (String × String)),
        pyLower (generate_md5_sign md5hex
          (params.map (fun kv => (kv.1, some kv.2))) merchant_key) ≠ "" →
        (verify_zpay_callback md5hex params merchant_key = true ↔
          pyLower ((dictGet params "sign").getD "")
            = pyLower (generate_md5_sign md5hex
                (params.map (fun kv => (kv.1, some kv.2))) merchant_key))) := by
  refine ⟨fun l₁ l₂ hp hnd => generate_md5_sign_perm md5hex merchant_key hp hnd, ?_, ?_⟩
  · rw [generate_md5_sign, show paramStr (List.insertionSort keyLE (filteredParams
      [("b", some "2"), ("a", some "1")])) ++ "K" = "a=1&b=2K" from by decide]
  · intro params hne
    rw [verify_zpay_callback]
    by_cases h0 : ((dictGet params "sign").getD "") = ""
    · simp only [h0]
      constructor
      · intro h
        simp at h
      · intro h
        exact absurd h.symm (by simpa [pyLower] using hne)
    · simp only [beq_iff_eq, h0, if_neg]
      constructor
      · intro h
        simpa using h
      · intro h
        simp [h]

theorem generate_md5_sign_spec_witness :
    generate_md5_sign (fun _ => "AA") [("b", some "2"), ("a", some "1")] "K"
      = generate_md5_sign (fun _ => "AA") [("a", some "1"), ("b", some "2")] "K"
    ∧ verify_zpay_callback (fun _ => "AA") [("a", "1"), ("sign", "aa")] "K" = true := by
  constructor
  · exact (generate_md5_sign_spec (fun _ => "AA") "K").1 _ _ (by decide) (by decide)
  · exact ((generate_md5_sign_spec (fun _ => "AA") "K").2.2 [("a", "1"), ("sign", "aa")]
      (by decide)).mpr (by decide)

/-- C1 (code bug): evaluating `add_credits` on a fresh user shows the
stored balance diverging from the ledger. After crediting 5 and then 3,
the profile stores 3 — `add_credits` hands the delta `amount` to
`update_user_credits`, which stores its argument as the absolute
balance — while the transaction amounts sum to 8 and the latest
`balance_after` is 8; a third credit of 2 then yields `balance_after`
5 where the previous entry's 8 plus the amount 2 is 10. -/
theorem add_credits_balance_ledger_divergence :
    (get_user_profile (add_credits (add_credits
        { profiles := [], txns := [] } 1 5 "recharge" none).2 1 3 "recharge" none).2.profiles 1).map
      UserProfile.credits = some 3
    ∧ ((add_credits (add_credits
        { profiles := [], txns := [] } 1 5 "recharge" none).2 1 3 "recharge" none).2.txns.map
      CreditTransaction.amount).sum = 8
    ∧ ((add_credits (add_credits
        { profiles := [], txns := [] } 1 5 "recharge" none).2 1 3 "recharge" none).2.txns.getLast?).map
      CreditTransaction.balance_after = some 8
    ∧ (3 : Int) ≠ 8
    ∧ ((add_credits (add_credits (add_credits
        { profiles := [], txns := [] } 1 5 "recharge" none).2 1 3 "recharge" none).2
        1 2 "recharge" none).2.txns.map CreditTransaction.balance_after = [5, 8, 5]
    ∧ (8 + 2 : Int) ≠ 5) := by
  decide

/-- C4 counterexample: `update_payment_order` lets a Success (terminal)
order transition back to Pending — the update is applied and returned
(no `InvalidTransition` failure), the stored status changes from 1 to 0
and the pending-uniqueness slot reopens. -/
theorem update_payment_order_terminal_transition_cex :
    ((update_payment_order
        [{ id := 3, user_id := 1, out_trade_no := "A", name := "x", money := 1,
           param_product_id := none, trade_no := none, status := 1, trade_status := none,
           endtime := none, unique_pending_flag := 3, created_at := 0 }] 3
        { status := some 0 }).1.map PaymentOrder.status = some 0)
    ∧ ((update_payment_order
        [{ id := 3, user_id := 1, out_trade_no := "A", name := "x", money := 1,
           param_product_id := none, trade_no := none, status := 1, trade_status := none,
           endtime := none, unique_pending_flag := 3, created_at := 0 }] 3
        { status := some 0 }).2.map PaymentOrder.status = [0])
    ∧ ((update_payment_order
        [{ id := 3, user_id := 1, out_trade_no := "A", name := "x", money := 1,
           param_product_id := none, trade_no := none, status := 1, trade_status := none,
           endtime := none, unique_pending_flag := 3, created_at := 0 }] 3
        { status := some 0 }).2.map PaymentOrder.unique_pending_flag = [0]) := by
  decide

/-- C4 as amended: `update_payment_order` enforces no transition guard.
For any stored order — Success and Closed included — a status update is
applied and reported as success, and `unique_pending_flag` is recomputed:
0 on a move to Pending, the order's own id on a move to any other
status. -/
theorem update_payment_order_no_guard (orders : List PaymentOrder) (order_id : Nat)
    (upd : PaymentOrderUpdate) (o : PaymentOrder) (new_status : Int)
    (h : get_payment_order_by_id orders order_id = some o)
    (hs : upd.status = some new_status) (hne : new_status ≠ o.status) :
    ∃ o', update_payment_order orders order_id upd
        = (some o', orders.map (fun x => if x.id == order_id then o' else x))
      ∧ o'.status = new_status
      ∧ o'.unique_pending_flag = (if new_status = 0 then 0 else o.id) := by
  simp only [update_payment_order, h, hs]
  by_cases h0 : new_status = 0
  · subst h0
    rw [if_pos hne, if_pos rfl]
    exact ⟨_, rfl, rfl, by simp⟩
  · rw [if_pos hne, if_neg h0]
    exact ⟨_, rfl, rfl, by simp [h0]⟩

theorem update_payment_order_no_guard_witness :
    ∃ o', update_payment_order
        [{ id := 3, user_id := 1, out_trade_no := "A", name := "x", money := 1,
           param_product_id := none, trade_no := none, status := 1, trade_status := none,
           endtime := none, unique_pending_flag := 3, created_at := 0 }] 3
        { status := some 2 }
        = (some o',
          [{ id := 3, user_id := 1, out_trade_no := "A", name := "x", money := 1,
             param_product_id := none, trade_no := none, status := 1, trade_status := none,
             endtime := none, unique_pending_flag := 3, created_at := 0 }].map
            (fun x => if x.id == 3 then o' else x))
      ∧ o'.status = 2
      ∧ o'.unique_pending_flag = (if (2 : Int) = 0 then 0 else 3) :=
  update_payment_order_no_guard
    [{ id := 3, user_id := 1, out_trade_no := "A", name := "x", money := 1,
       param_product_id := none, trade_no := none, status := 1, trade_status := none,
       endtime := none, unique_pending_flag := 3, created_at := 0 }] 3
    { status := some 2 }
    { id := 3, user_id := 1, out_trade_no := "A", name := "x", money := 1,
      param_product_id := none, trade_no := none, status := 1, trade_status := none,
      endtime := none, unique_pending_flag := 3, created_at := 0 } 2 rfl rfl (by decide)

/-- C9 counterexample: `delete_pending_payment_orders` takes no age cutoff
and deletes a Pending order created at time 100 — newer than, say, a
cutoff at time 10 — anyway, while keeping the Success order: the claim's
"no Pending order newer than the cutoff is affected" fails. -/
theorem delete_pending_orders_ignores_age_cex :
    ((delete_pending_payment_orders
        [{ id := 1, user_id := 1, out_trade_no := "A", name := "x", money := 1,
           param_product_id := none, trade_no := none, status := 0, trade_status := none,
           endtime := none, unique_pending_flag := 0, created_at := 100 },
         { id := 2, user_id := 1, out_trade_no := "B", name := "x", money := 1,
           param_product_id := none, trade_no := none, status := 1, trade_status := none,
           endtime := none, unique_pending_flag := 2, created_at := 0 }]).1 = 1)
    ∧ ((delete_pending_payment_orders
        [{ id := 1, user_id := 1, out_trade_no := "A", name := "x", money := 1,
           param_product_id := none, trade_no := none, status := 0, trade_status := none,
           endtime := none, unique_pending_flag := 0, created_at := 100 },
         { id := 2, user_id := 1, out_trade_no := "B", name := "x", money := 1,
           param_product_id := none, trade_no := none, status := 1, trade_status := none,
           endtime := none, unique_pending_flag := 2, created_at := 0 }]).2.map
        PaymentOrder.id = [2])
    ∧ (100 : Int) > 10 := by
  decide

/-- C9 as amended: `delete_pending_payment_orders` deletes exactly the
orders whose status is Pending, regardless of age (the scheduler invokes
it with no cutoff): every non-Pending order survives in place, every
Pending order is removed, and the returned count plus the survivors
accounts for the whole table. -/
theorem delete_pending_orders_deletes_all_pending (orders : List PaymentOrder) :
    (delete_pending_payment_orders orders).2 = orders.filter (fun o => o.status != 0)
    ∧ (delete_pending_payment_orders orders).1 + (delete_pending_payment_orders orders).2.length
        = orders.length
    ∧ ∀ o ∈ orders, (o.status ≠ 0 → o ∈ (delete_pending_payment_orders orders).2)
        ∧ (o.status = 0 → o ∉ (delete_pending_payment_orders orders).2) := by
  refine ⟨rfl, ?_, ?_⟩
  · simp only [delete_pending_payment_orders]
    induction orders with
    | nil => rfl
    | cons o t ih =>
      by_cases h : o.status = 0 <;>
        simp [List.filter_cons, h] <;> omega
  · intro o ho
    constructor
    · intro hs
      rw [delete_pending_payment_orders]
      simp only [List.mem_filter]
      exact ⟨ho, by simpa using hs⟩
    · intro hs hmem
      rw [delete_pending_payment_orders] at hmem
      simp only [List.mem_filter] at hmem
      simp [hs] at hmem

theorem delete_pending_orders_deletes_all_pending_witness :
    ({ id := 2, user_id := 1, out_trade_no := "B", name := "x", money := 1,
       param_product_id := none, trade_no := none, status := 1, trade_status := none,
       endtime := none, unique_pending_flag := 2, created_at := 0 } : PaymentOrder)
      ∈ (delete_pending_payment_orders
        [{ id := 2, user_id := 1, out_trade_no := "B", name := "x", money := 1,
           param_product_id := none, trade_no := none, status := 1, trade_status := none,
           endtime := none, unique_pending_flag := 2, created_at := 0 }]).2 :=
  ((delete_pending_orders_deletes_all_pending _).2.2 _ (by simp)).1 (by decide)

/-- Claim-side abbreviation (spec §4.4 / C8): the *effective* tier treats
an expired membership (expiry ≤ now) as tier 0 regardless of stored
value. -/
def effectiveTier (p : UserProfile) (now : Int) : Int :=
  match p.membership_expires_at with
  | some e => if e ≤ now then 0 else p.membership_type
  | none => p.membership_type

/-- Claim-side abbreviation (spec §4.4 / C8): the new expiry is
`existing_expiry + days` while the membership is still active and
`now + days` when expired or absent. -/
def claimNewExpiry (p : UserProfile) (now d : Int) : Int :=
  match p.membership_expires_at with
  | some e => if e ≤ now then now + d else e + d
  | none => now + d

/-- C8: `upgrade_membership` follows the tier policy exactly: expired
memberships count as tier 0; a request below Professional against an
effectively-Professional user is a silent no-op; upgrades (requested above
the effective tier, or effective tier 0) set tier and expiry; a same-tier
request only extends the expiry; a strictly lower request against an
active non-Professional membership changes nothing; and the new expiry
extends additively from an active expiry and restarts from `now`
otherwise. -/
theorem upgrade_membership_policy (profiles : Profiles) (now : Int) (user_id : Nat)
    (t d : Int) (p : UserProfile)
    (hp : get_user_profile profiles user_id = some p) :
    (effectiveTier p now = 2 → t < 2 →
      upgrade_membership profiles now user_id t d = (some p, profiles))
    ∧ (t > effectiveTier p now ∨ effectiveTier p now = 0 →
      upgrade_membership profiles now user_id t d
        = (some { p with membership_type := t,
                         membership_expires_at := some (claimNewExpiry p now d) },
           setProfile profiles user_id
             { p with membership_type := t,
                      membership_expires_at := some (claimNewExpiry p now d) }))
    ∧ (effectiveTier p now ≠ 0 → t = effectiveTier p now →
      upgrade_membership profiles now user_id t d
        = (some { p with membership_expires_at := some (claimNewExpiry p now d) },
           setProfile profiles user_id
             { p with membership_expires_at := some (claimNewExpiry p now d) }))
    ∧ (effectiveTier p now ≠ 2 → effectiveTier p now ≠ 0 → t < effectiveTier p now →
      upgrade_membership profiles now user_id t d = (some p, profiles)) := by
  refine ⟨?_, ?_, ?_, ?_⟩
  · intro heff ht
    simp only [upgrade_membership, hp]
    rcases hexp : p.membership_expires_at with _ | e
    · simp only [effectiveTier, hexp] at heff
      simp [heff, ht]
    · simp only [effectiveTier, hexp] at heff
      by_cases he : e ≤ now
      · rw [if_pos he] at heff
        exact absurd heff (by decide)
      · rw [if_neg he] at heff
        simp [he, heff, ht]
  · intro hup
    simp only [upgrade_membership, hp]
    rcases hexp : p.membership_expires_at with _ | e
    · simp only [effectiveTier, hexp] at hup
      have hguard : ¬ (p.membership_type = 2 ∧ t < 2) := by omega
      simp [claimNewExpiry, hexp, hguard, hup]
    · simp only [effectiveTier, hexp] at hup
      by_cases he : e ≤ now
      · rw [if_pos he] at hup
        have hnot : ¬ e > now := by omega
        simp [claimNewExpiry, hexp, he, hnot]
      · rw [if_neg he] at hup
        have hguard : ¬ (p.membership_type = 2 ∧ t < 2) := by omega
        have hgt : e > now := by omega
        simp [claimNewExpiry, hexp, he, hguard, hup, hgt]
  · intro hne ht
    simp only [upgrade_membership, hp]
    rcases hexp : p.membership_expires_at with _ | e
    · simp only [effectiveTier, hexp] at hne ht
      have hguard : ¬ (p.membership_type = 2 ∧ t < 2) := by omega
      have hnogt : ¬ (t > p.membership_type ∨ p.membership_type = 0) := by omega
      simp [claimNewExpiry, hexp, hguard, hnogt, ht]
      intro h2 h2'
      omega
    · simp only [effectiveTier, hexp] at hne ht
      by_cases he : e ≤ now
      · rw [if_pos he] at ht hne
        exact absurd rfl hne
      · rw [if_neg he] at ht hne
        have hguard : ¬ (p.membership_type = 2 ∧ t < 2) := by omega
        have hnogt : ¬ (t > p.membership_type ∨ p.membership_type = 0) := by omega
        have hgt : e > now := by omega
        simp [claimNewExpiry, hexp, he, hguard, hnogt, ht, hgt]
        intro h2 h2'
        omega
  · intro hne2 hne0 hlt
    simp only [upgrade_membership, hp]
    rcases hexp : p.membership_expires_at with _ | e
    · simp only [effectiveTier, hexp] at hne2 hne0 hlt
      have hguard : ¬ (p.membership_type = 2 ∧ t < 2) := by omega
      have hnogt : ¬ (t > p.membership_type ∨ p.membership_type = 0) := by omega
      have hneq : ¬ (t = p.membership_type) := by omega
      simp [hexp, hguard, hnogt, hneq]
    · simp only [effectiveTier, hexp] at hne2 hne0 hlt
      by_cases he : e ≤ now
      · rw [if_pos he] at hne0
        exact absurd rfl hne0
      · rw [if_neg he] at hne2 hne0 hlt
        have hguard : ¬ (p.membership_type = 2 ∧ t < 2) := by omega
        have hnogt : ¬ (t > p.membership_type ∨ p.membership_type = 0) := by omega
        have hneq : ¬ (t = p.membership_type) := by omega
        simp [hexp, he, hguard, hnogt, hneq]

theorem upgrade_membership_policy_witness :
    upgrade_membership [(1, { credits := 0, free_model1_usages := 5, free_model2_usages := 3,
                              membership_type := 0, membership_expires_at := none })] 100 1 1 30
      = (some { credits := 0, free_model1_usages := 5, free_model2_usages := 3,
                membership_type := 1, membership_expires_at := some 130 },
         [(1, { credits := 0, free_model1_usages := 5, free_model2_usages := 3,
                membership_type := 1, membership_expires_at := some 130 })])
    ∧ upgrade_membership [(2, { credits := 0, free_model1_usages := 5, free_model2_usages := 3,
                                membership_type := 2, membership_expires_at := some 500 })] 100 2 1 30
      = (some { credits := 0, free_model1_usages := 5, free_model2_usages := 3,
                membership_type := 2, membership_expires_at := some 500 },
         [(2, { credits := 0, free_model1_usages := 5, free_model2_usages := 3,
                membership_type := 2, membership_expires_at := some 500 })]) := by
  constructor
  · exact (upgrade_membership_policy
      [(1, { credits := 0, free_model1_usages := 5, free_model2_usages := 3,
             membership_type := 0, membership_expires_at := none })] 100 1 1 30
      { credits := 0, free_model1_usages := 5, free_model2_usages := 3,
        membership_type := 0, membership_expires_at := none } rfl).2.1 (Or.inr rfl)
  · exact (upgrade_membership_policy
      [(2, { credits := 0, free_model1_usages := 5, free_model2_usages := 3,
             membership_type := 2, membership_expires_at := some 500 })] 100 2 1 30
      { credits := 0, free_model1_usages := 5, free_model2_usages := 3,
        membership_type := 2, membership_expires_at := some 500 } rfl).1 rfl (by decide)

/-! ## Ledger operation sequences (claims C1/C10) -/

/-- One call to `add_credits` (credit) or `consume_credits` (debit). -/
inductive LedgerOp where
  | credit (user_id : Nat) (amount : Int) (source : String) (source_id : Option Nat)
  | debit (user_id : Nat) (amount : Int) (source : String) (source_id : Option Nat)
  deriving Repr, DecidableEq

/-- Run one ledger operation (a failed debit leaves the state the call
returns, i.e. with the lazily created profile committed). -/
def applyLedgerOp (db : LedgerDB) : LedgerOp → LedgerDB
  | .credit u a s i => (add_credits db u a s i).2
  | .debit u a s i => (consume_credits db u a s i).2

/-- Run a sequence of ledger operations. -/
def applyLedgerOps (db : LedgerDB) (ops : List LedgerOp) : LedgerDB :=
  ops.foldl applyLedgerOp db

/-- The operation's amount is positive (the spec's `amount > 0`
caller-side validation). -/
def LedgerOp.positiveAmount : LedgerOp → Prop
  | .credit _ a _ _ => 0 < a
  | .debit _ a _ _ => 0 < a

/-- Every stored balance is non-negative. -/
def nonNegBalances (profiles : Profiles) : Prop := ∀ kv ∈ profiles, 0 ≤ kv.2.credits

instance : DecidablePred LedgerOp.positiveAmount := fun op =>
  match op with
  | .credit _ a _ _ => inferInstanceAs (Decidable (0 < a))
  | .debit _ a _ _ => inferInstanceAs (Decidable (0 < a))

instance (profiles : Profiles) : Decidable (nonNegBalances profiles) :=
  inferInstanceAs (Decidable (∀ kv ∈ profiles, 0 ≤ kv.2.credits))

theorem nonNegBalances_setProfile {profiles : Profiles} {uid : Nat} {p : UserProfile}
    (h : nonNegBalances profiles) (hc : 0 ≤ p.credits) :
    nonNegBalances (setProfile profiles uid p) := by
  intro kv hkv
  rcases List.mem_map.mp hkv with ⟨kv₀, h₀, heq⟩
  by_cases hb : (kv₀.1 == uid) = true
  · rw [if_pos hb] at heq
    rw [← heq]
    exact hc
  · rw [if_neg hb] at heq
    rw [← heq]
    exact h kv₀ h₀

theorem nonNegBalances_update_user_credits {profiles : Profiles} {uid : Nat} {c : Int}
    (h : nonNegBalances profiles) (hc : 0 ≤ c) :
    nonNegBalances (update_user_credits profiles uid c) := by
  rw [update_user_credits]
  cases hg : get_user_profile profiles uid with
  | none => exact h
  | some p => exact nonNegBalances_setProfile h hc

theorem nonNegBalances_orCreate {profiles : Profiles} {uid : Nat}
    (h : nonNegBalances profiles) :
    nonNegBalances (get_user_profile_or_create profiles uid).2 := by
  rw [get_user_profile_or_create]
  cases hg : get_user_profile profiles uid with
  | none =>
    intro kv hkv
    rcases List.mem_append.mp hkv with h₁ | h₁
    · exact h kv h₁
    · rcases List.mem_singleton.mp h₁ with rfl
      exact le_refl 0
  | some p => exact h

theorem orCreate_credits_nonneg {profiles : Profiles} {uid : Nat}
    (h : nonNegBalances profiles) :
    0 ≤ (get_user_profile_or_create profiles uid).1.credits := by
  rw [get_user_profile_or_create]
  cases hg : get_user_profile profiles uid with
  | none => exact le_refl 0
  | some p =>
    have hex : ∃ kv ∈ profiles, kv.2 = p := by
      rw [get_user_profile] at hg
      rcases hfind : profiles.find? (fun kv => kv.1 == uid) with _ | kv
      · rw [hfind] at hg
        exact absurd hg (by simp)
      · rw [hfind] at hg
        exact ⟨kv, List.mem_of_find?_eq_some hfind, Option.some.inj hg⟩
    rcases hex with ⟨kv, hmem, rfl⟩
    exact h kv hmem

theorem nonNegBalances_applyLedgerOp {db : LedgerDB} (op : LedgerOp)
    (h : nonNegBalances db.profiles) (hpos : op.positiveAmount) :
    nonNegBalances (applyLedgerOp db op).profiles := by
  cases op with
  | credit u a s i =>
    simp only [applyLedgerOp, add_credits]
    exact nonNegBalances_update_user_credits (nonNegBalances_orCreate h) (le_of_lt hpos)
  | debit u a s i =>
    simp only [applyLedgerOp, consume_credits]
    by_cases hlt : (get_user_profile_or_create db.profiles u).1.credits < a
    · simp only [if_pos hlt]
      exact nonNegBalances_orCreate h
    · simp only [if_neg hlt]
      exact nonNegBalances_update_user_credits (nonNegBalances_orCreate h) (by omega)

theorem get_setProfile {profiles : Profiles} {uid : Nat} {p q : UserProfile}
    (h : get_user_profile profiles uid = some q) :
    get_user_profile (setProfile profiles uid p) uid = some p := by
  induction profiles with
  | nil => simp [get_user_profile] at h
  | cons kv t ih =>
    by_cases hb : (kv.1 == uid) = true
    · have hset : setProfile (kv :: t) uid p = (kv.1, p) :: setProfile t uid p := by
        simp only [setProfile, List.map_cons, if_pos hb]
      rw [get_user_profile, hset, List.find?_cons_of_pos _ (by simpa using hb)]
      rfl
    · have hset : setProfile (kv :: t) uid p = kv :: setProfile t uid p := by
        simp only [setProfile, List.map_cons, if_neg hb]
      rw [get_user_profile] at h ⊢
      rw [hset, List.find?_cons_of_neg _ (by simpa using hb)]
      rw [List.find?_cons_of_neg _ (by simpa using hb)] at h
      exact ih h

theorem get_orCreate {profiles : Profiles} {uid : Nat} :
    get_user_profile (get_user_profile_or_create profiles uid).2 uid
      = some (get_user_profile_or_create profiles uid).1 := by
  rw [get_user_profile_or_create]
  cases hg : get_user_profile profiles uid with
  | some p => exact hg
  | none =>
    rw [get_user_profile] at hg ⊢
    induction profiles with
    | nil => simp
    | cons kv t ih =>
      by_cases hb : (kv.1 == uid) = true
      · simp [List.find?, hb] at hg
      · simp only [List.cons_append, List.find?, hb] at hg ⊢
        exact ih hg

/-- C10 counterexample: for a user with no profile row, `consume_credits`
raises `InsufficientCredits` but still changes persistent state —
`get_user_profile_or_create` commits a default profile row before the
balance check. -/
theorem consume_credits_failure_mutates_state_cex :
    (∃ msg, (consume_credits { profiles := [], txns := [] } 1 1
        "drawing_generation" none).1 = Except.error msg)
    ∧ (consume_credits { profiles := [], txns := [] } 1 1 "drawing_generation" none).2
        ≠ { profiles := [], txns := [] }
    ∧ (consume_credits { profiles := [], txns := [] } 1 1 "drawing_generation" none).2.profiles
        = [(1, defaultUserProfile)] := by
  exact ⟨⟨"积分不足", rfl⟩, by decide, rfl⟩

/-- C10 as amended: `consume_credits` fails with the insufficient-credits
`ValueError` exactly when the user's current balance is below the amount;
on failure the ledger and every stored balance are unchanged (though a
missing profile row is lazily created with default values, the only state
the failure path writes); on success it stores the reduced balance and
appends a ledger entry with the negated amount; and under positive-amount
credits/debits no stored balance is ever negative after any operation
sequence. -/
theorem consume_credits_spec :
    (∀ (db : LedgerDB) (user_id : Nat) (amount : Int) (source : String)
        (source_id : Option Nat), 0 < amount →
      ((∃ msg, (consume_credits db user_id amount source source_id).1 = Except.error msg)
        ↔ (get_user_profile_or_create db.profiles user_id).1.credits < amount)
      ∧ ((get_user_profile_or_create db.profiles user_id).1.credits < amount →
          (consume_credits db user_id amount source source_id).2
            = { profiles := (get_user_profile_or_create db.profiles user_id).2,
                txns := db.txns }
          ∧ (get_user_profile
              (consume_credits db user_id amount source source_id).2.profiles user_id).map
              UserProfile.credits
            = some (get_user_profile_or_create db.profiles user_id).1.credits)
      ∧ (¬ (get_user_profile_or_create db.profiles user_id).1.credits < amount →
          (get_user_profile
              (consume_credits db user_id amount source source_id).2.profiles user_id).map
              UserProfile.credits
            = some ((get_user_profile_or_create db.profiles user_id).1.credits - amount)
          ∧ (consume_credits db user_id amount source source_id).2.txns
            = db.txns ++ [{ user_id := user_id, amount := -amount,
                            balance_after :=
                              (get_user_profile_or_create db.profiles user_id).1.credits
                                - amount,
                            source := source, source_id := source_id }]))
    ∧ (∀ (db : LedgerDB) (ops : List LedgerOp),
        (∀ op ∈ ops, op.positiveAmount) → nonNegBalances db.profiles →
        nonNegBalances (applyLedgerOps db ops).profiles) := by
  constructor
  · intro db user_id amount source source_id _hpos
    refine ⟨?_, ?_, ?_⟩
    · constructor
      · intro ⟨msg, hmsg⟩
        by_contra hge
        rw [consume_credits] at hmsg
        rw [if_neg hge] at hmsg
        exact absurd hmsg (by simp)
      · intro hlt
        exact ⟨_, by rw [consume_credits, if_pos hlt]⟩
    · intro hlt
      rw [consume_credits, if_pos hlt]
      refine ⟨rfl, ?_⟩
      have horc := @get_orCreate db.profiles user_id
      simp [horc]
    · intro hge
      rw [consume_credits, if_neg hge]
      constructor
      · have horc := @get_orCreate db.profiles user_id
        simp only [update_user_credits, horc]
        have hset := @get_setProfile (get_user_profile_or_create db.profiles user_id).2 user_id
          { (get_user_profile_or_create db.profiles user_id).1 with
            credits := (get_user_profile_or_create db.profiles user_id).1.credits - amount }
          (get_user_profile_or_create db.profiles user_id).1 horc
        simp [hset]
      · rfl
  · intro db ops hpos hnn
    induction ops generalizing db with
    | nil => exact hnn
    | cons op t ih =>
      rw [applyLedgerOps, List.foldl_cons]
      exact ih _ (fun x hx => hpos x (List.mem_cons_of_mem op hx))
        (nonNegBalances_applyLedgerOp op hnn (hpos op (List.mem_cons_self op t)))

theorem consume_credits_spec_witness :
    (∃ msg, (consume_credits
        { profiles := [(1, { credits := 10, free_model1_usages := 5,
                             free_model2_usages := 3, membership_type := 0,
                             membership_expires_at := none })],
          txns := [] } 1 20 "drawing_generation" none).1 = Except.error msg)
    ∧ nonNegBalances (applyLedgerOps { profiles := [], txns := [] }
        [.credit 1 5 "recharge" none, .debit 1 3 "drawing_generation" none,
         .debit 1 9 "drawing_generation" none]).profiles := by
  constructor
  · exact ((consume_credits_spec.1
      { profiles := [(1, { credits := 10, free_model1_usages := 5,
                           free_model2_usages := 3, membership_type := 0,
                           membership_expires_at := none })],
        txns := [] } 1 20 "drawing_generation" none (by decide)).1).mpr (by decide)
  · exact consume_credits_spec.2 { profiles := [], txns := [] }
      [.credit 1 5 "recharge" none, .debit 1 3 "drawing_generation" none,
       .debit 1 9 "drawing_generation" none]
      (by intro op hop; fin_cases hop <;> decide) (by decide)

/-- C3: a callback that reaches a resolved order already in Success is
acknowledged with the literal body `success` and leaves the whole
persistent state unchanged, so replaying it any number of times is a
no-op. -/
theorem payment_notify_idempotent_ack
    (md5hex : String → String) (parseMoney : String → Option ℚ) (merchant_key : String)
    (now : Int) (db : NotifyDB) (params : List (String × String)) (order : PaymentOrder)
    (hreq : ∀ p ∈ requiredParams, (dictGet params p).isSome = true)
    (hsig : verify_zpay_callback md5hex params merchant_key = true)
    (hord : get_payment_order_by_out_trade_no db.orders
      ((dictGet params "out_trade_no").getD "") = some order)
    (hstat : order.status = 1) :
    payment_notify md5hex parseMoney merchant_key now db params = ("success", db)
    ∧ ∀ n, (fun d => (payment_notify md5hex parseMoney merchant_key now d params).2)^[n] db
        = db := by
  have hany : (requiredParams.any (fun p => (dictGet params p).isNone)) = false := by
    rw [List.any_eq_false]
    intro x hx
    have hx' := hreq x hx
    cases hg : dictGet params x with
    | none => rw [hg] at hx'; exact absurd hx' (by simp)
    | some v => simp
  have hmain : payment_notify md5hex parseMoney merchant_key now db params
      = ("success", db) := by
    simp only [payment_notify, hany, hsig, hord, hstat]
    simp
  refine ⟨hmain, fun n => Function.iterate_fixed ?_ n⟩
  show (payment_notify md5hex parseMoney merchant_key now db params).2 = db
  rw [hmain]

/-- Fixture for the C3 witness: an order already settled (status 1). -/
def settledOrderFx : PaymentOrder where
  id := 7
  user_id := 42
  out_trade_no := "ORD1"
  name := "新手体验包"
  money := 5
  param_product_id := none
  trade_no := some "T1"
  status := 1
  trade_status := some "TRADE_SUCCESS"
  endtime := some 0
  unique_pending_flag := 7
  created_at := 0

/-- Fixture for the C3 witness: the database holding `settledOrderFx`. -/
def settledDbFx : NotifyDB where
  orders := [settledOrderFx]
  users := [(42, "USER")]
  profiles := []
  txns := []

/-- Fixture for the C3 witness: a well-formed callback for `settledOrderFx`
(signed against the opaque digest `fun _ => "aa"`). -/
def settledParamsFx : List (String × String) :=
  [("pid", "P"), ("trade_no", "T1"), ("out_trade_no", "ORD1"), ("type", "alipay"),
   ("name", "新手体验包"), ("money", "5.00"), ("trade_status", "TRADE_SUCCESS"),
   ("sign", "aa"), ("sign_type", "MD5")]

theorem payment_notify_idempotent_ack_witness :
    payment_notify (fun _ => "aa") (fun _ => none) "K" 0 settledDbFx settledParamsFx
      = ("success", settledDbFx) :=
  (payment_notify_idempotent_ack (fun _ => "aa") (fun _ => none) "K" 0 settledDbFx
    settledParamsFx settledOrderFx (by decide) (by decide) rfl rfl).1

/-- C5: every callback failing local validation — a missing required
provider field, a signature that does not verify, no order matching
`out_trade_no`, or a callback amount that differs from the order amount
after rounding to cents — is answered with the literal body `fail` and
leaves the persistent state untouched (in particular a Pending order
stays Pending and no ledger entry is written). -/
theorem payment_notify_rejects_invalid
    (md5hex : String → String) (parseMoney : String → Option ℚ) (merchant_key : String)
    (now : Int) (db : NotifyDB) (params : List (String × String)) :
    ((requiredParams.any (fun p => (dictGet params p).isNone)) = true →
      payment_notify md5hex parseMoney merchant_key now db params = ("fail", db))
    ∧ (verify_zpay_callback md5hex params merchant_key = false →
      payment_notify md5hex parseMoney merchant_key now db params = ("fail", db))
    ∧ (get_payment_order_by_out_trade_no db.orders ((dictGet params "out_trade_no").getD "")
          = none →
      payment_notify md5hex parseMoney merchant_key now db params = ("fail", db))
    ∧ (∀ (order : PaymentOrder) (m : ℚ),
        get_payment_order_by_out_trade_no db.orders ((dictGet params "out_trade_no").getD "")
          = some order →
        order.status ≠ 1 →
        parseMoney ((dictGet params "money").getD "0") = some m →
        roundCents m ≠ roundCents order.money →
        payment_notify md5hex parseMoney merchant_key now db params = ("fail", db)) := by
  refine ⟨?_, ?_, ?_, ?_⟩
  · intro h
    simp [payment_notify, h]
  · intro h
    by_cases hany : (requiredParams.any (fun p => (dictGet params p).isNone)) = true
    · simp [payment_notify, hany]
    · simp [payment_notify, hany, h]
  · intro h
    by_cases hany : (requiredParams.any (fun p => (dictGet params p).isNone)) = true
    · simp [payment_notify, hany]
    · by_cases hsig : verify_zpay_callback md5hex params merchant_key = true
      · simp [payment_notify, hany, hsig, h]
      · simp [payment_notify, hany, hsig]
  · intro order m hord hstat hm hmoney
    by_cases hany : (requiredParams.any (fun p => (dictGet params p).isNone)) = true
    · simp [payment_notify, hany]
    · by_cases hsig : verify_zpay_callback md5hex params merchant_key = true
      · have hbeq : (order.status == 1) = false := by
          simp [hstat]
        simp [payment_notify, hany, hsig, hord, hbeq, hm, hmoney]
      · simp [payment_notify, hany, hsig]

theorem payment_notify_rejects_invalid_witness :
    payment_notify (fun _ => "aa") (fun _ => none) "K" 0
      { orders := [], users := [], profiles := [], txns := [] } []
      = ("fail", { orders := [], users := [], profiles := [], txns := [] }) :=
  (payment_notify_rejects_invalid (fun _ => "aa") (fun _ => none) "K" 0
    { orders := [], users := [], profiles := [], txns := [] } []).1 (by decide)

/-- C6: a callback that passes the required-field, signature,
order-resolution and amount checks against a Pending order but reports a
trade status other than `TRADE_SUCCESS` is acknowledged with the literal
body `success` while applying no effect: the state (order status
included) is unchanged. -/
theorem payment_notify_nonsuccess_ack_without_effect
    (md5hex : String → String) (parseMoney : String → Option ℚ) (merchant_key : String)
    (now : Int) (db : NotifyDB) (params : List (String × String)) (order : PaymentOrder)
    (m : ℚ)
    (hreq : ∀ p ∈ requiredParams, (dictGet params p).isSome = true)
    (hsig : verify_zpay_callback md5hex params merchant_key = true)
    (hord : get_payment_order_by_out_trade_no db.orders
      ((dictGet params "out_trade_no").getD "") = some order)
    (hstat : order.status = 0)
    (hm : parseMoney ((dictGet params "money").getD "0") = some m)
    (hamount : roundCents m = roundCents order.money)
    (hts : (dictGet params "trade_status").getD "" ≠ "TRADE_SUCCESS") :
    payment_notify md5hex parseMoney merchant_key now db params = ("success", db) := by
  have hany : (requiredParams.any (fun p => (dictGet params p).isNone)) = false := by
    rw [List.any_eq_false]
    intro x hx
    have hx' := hreq x hx
    cases hg : dictGet params x with
    | none => rw [hg] at hx'; exact absurd hx' (by simp)
    | some v => simp
  have hbeq : (order.status == 1) = false := by
    simp [hstat]
  simp [payment_notify, hany, hsig, hord, hbeq, hm, hamount, hts]

/-- Fixture for the C6 witness: a Pending order. -/
def pendingOrderFx : PaymentOrder where
  id := 9
  user_id := 42
  out_trade_no := "ORD2"
  name := "新手体验包"
  money := 5
  param_product_id := some "credits_150"
  trade_no := none
  status := 0
  trade_status := none
  endtime := none
  unique_pending_flag := 0
  created_at := 0

/-- Fixture for the C6 witness: the database holding `pendingOrderFx`. -/
def pendingDbFx : NotifyDB where
  orders := [pendingOrderFx]
  users := [(42, "USER")]
  profiles := []
  txns := []

/-- Fixture for the C6 witness: a signed callback for `pendingOrderFx`
whose trade status is not the success sentinel. -/
def nonSuccessParamsFx : List (String × String) :=
  [("pid", "P"), ("trade_no", "T2"), ("out_trade_no", "ORD2"), ("type", "alipay"),
   ("name", "新手体验包"), ("money", "5.00"), ("trade_status", "WAIT_BUYER_PAY"),
   ("sign", "aa"), ("sign_type", "MD5")]

theorem payment_notify_nonsuccess_ack_without_effect_witness :
    payment_notify (fun _ => "aa") (fun s => if s == "5.00" then some 5 else none) "K" 0
      pendingDbFx nonSuccessParamsFx = ("success", pendingDbFx) :=
  payment_notify_nonsuccess_ack_without_effect (fun _ => "aa")
    (fun s => if s == "5.00" then some 5 else none) "K" 0 pendingDbFx nonSuccessParamsFx
    pendingOrderFx 5 (by decide) (by decide) rfl rfl rfl rfl (by decide)

/-- Fixture for C2: a Pending order for product `credits_500` (500
credits plus an `advanced`/30-day membership) owned by user 42. -/
def settlementOrderFx : PaymentOrder where
  id := 8
  user_id := 42
  out_trade_no := "ORD3"
  name := "内测专享包"
  money := 5
  param_product_id := some "credits_500"
  trade_no := none
  status := 0
  trade_status := none
  endtime := none
  unique_pending_flag := 0
  created_at := 0

/-- Fixture for C2: user 42's profile before the callback, with a prior
balance of 100 credits and no membership. -/
def settlementProfileFx : UserProfile where
  credits := 100
  free_model1_usages := 5
  free_model2_usages := 3
  membership_type := 0
  membership_expires_at := none

/-- Fixture for C2: the database before the callback. -/
def settlementDbFx : NotifyDB where
  orders := [settlementOrderFx]
  users := [(42, "USER")]
  profiles := [(42, settlementProfileFx)]
  txns := []

/-- Fixture for C2: a well-formed success callback for
`settlementOrderFx` (signed against the opaque digest `fun _ => "aa"`). -/
def settlementParamsFx : List (String × String) :=
  [("pid", "P"), ("trade_no", "T3"), ("out_trade_no", "ORD3"), ("type", "alipay"),
   ("name", "内测专享包"), ("money", "5.00"), ("trade_status", "TRADE_SUCCESS"),
   ("sign", "aa"), ("sign_type", "MD5")]

/-- Fixture for C2: the state the handler actually commits — order
settled, exactly one `recharge` ledger entry recording `balance_after`
600, but the stored balance overwritten to 500 (not 100+500) and the
membership fields untouched. -/
def settlementResultFx : NotifyDB where
  orders := [
    { settlementOrderFx with
        trade_no := some "T3",
        trade_status := some "TRADE_SUCCESS",
        status := 1,
        endtime := some 1000,
        unique_pending_flag := 8 }]
  users := [(42, "USER")]
  profiles := [(42, { settlementProfileFx with credits := 500 })]
  txns := [{ user_id := 42, amount := 500, balance_after := 600, source := "recharge",
             source_id := some 8 }]

/-- C2 (code bug): a fully valid success callback for a Pending order of
product `credits_500` — which defines 500 credits and an `advanced`
30-day membership — settles the order and writes exactly one `recharge`
CreditTransaction, but the owner's stored balance ends at 500 instead of
100 + 500 (`add_credits` hands the delta to `update_user_credits`, which
stores it as the absolute balance), and the membership grant is never
applied (the `update_user_role(db, user.id, level, days, commit=False)`
call raises `TypeError` — `days` collides with the `commit` parameter —
which the inner `except` swallows). -/
theorem payment_notify_settlement_divergence :
    payment_notify (fun _ => "aa") (fun s => if s == "5.00" then some 5 else none) "K" 1000
      settlementDbFx settlementParamsFx = ("success", settlementResultFx)
    ∧ (get_user_profile settlementResultFx.profiles 42).map UserProfile.credits = some 500
    ∧ (500 : Int) ≠ 100 + 500
    ∧ (get_user_profile settlementResultFx.profiles 42).map UserProfile.membership_type
        = some 0
    ∧ (get_user_profile settlementResultFx.profiles 42).map UserProfile.membership_expires_at
        = some none
    ∧ (get_product_by_id "credits_500").toOption.map Product.credits = some 500
    ∧ (get_product_by_id "credits_500").toOption.map Product.membership
        = some (some { level := "advanced", days := 30 })
    ∧ settlementResultFx.txns.map CreditTransaction.source = ["recharge"]
    ∧ settlementResultFx.txns.length = 1
    ∧ settlementResultFx.orders.map PaymentOrder.status = [1] := by
  refine ⟨?_, by decide, by decide, by decide, by decide, by decide, by decide, by decide,
    by decide, by decide⟩
  have h1 : (requiredParams.any fun p => (dictGet settlementParamsFx p).isNone) = false := by
    decide
  have h2 : verify_zpay_callback (fun _ => "aa") settlementParamsFx "K" = true := by decide
  have h3 : get_payment_order_by_out_trade_no settlementDbFx.orders
      ((dictGet settlementParamsFx "out_trade_no").getD "") = some settlementOrderFx := rfl
  have h4 : (settlementOrderFx.status == 1) = false := by decide
  have h5 : ((fun s => if s == "5.00" then some (5 : ℚ) else none)
      ((dictGet settlementParamsFx "money").getD "0")) = some 5 := rfl
  have h6 : roundCents 5 = roundCents settlementOrderFx.money := rfl
  have h7 : ((dictGet settlementParamsFx "trade_status").getD "") = "TRADE_SUCCESS" := rfl
  have h8 : paymentNotifyTransaction settlementDbFx settlementOrderFx settlementParamsFx 1000
      = Except.ok settlementResultFx := rfl
  simp [payment_notify, h1, h2, h3, h4, h5, h6, h7, h8]
  rw [show ((dictGet settlementParamsFx "money").getD "0") = "5.00" from rfl]
  simp [h6]
